import Mathlib

/-!
Shallow embedding of the RTRWH-AR calculation engine
(`server/utils/calculationEngine.ts`, mode-specific variant: the file whose
`calculate` dispatches to `calculateRainwaterHarvesting` /
`calculateArtificialRecharge`).

Numbers are embedded as rationals (`ℚ`); JavaScript `Math.round` is
`jround` below.  The reference-data JSON files (`cities.json`,
`coefficients.json`) are not part of the sources, so city records and the
coefficient table are explicit parameters, shaped after
`shared/schema.ts`.  Where JavaScript division can produce `Infinity` or
`NaN` (the coverage percentage and the trench sizing), the computation is
embedded over the extended type `ERat` that models those special values;
everywhere else no division by a possibly-zero quantity occurs and plain
rationals are faithful.
-/

namespace RTRWH

/-- JavaScript `Math.round`: round half toward positive infinity. -/
def jround (q : ℚ) : ℤ := ⌊q + 1/2⌋

/-- Roof material, from `shared/schema.ts` (`roofType`). -/
inductive RoofType
  | RCC | GI | Asbestos | Tiles
deriving DecidableEq, Repr

/-- Surrounding environment class (`environment`). -/
inductive EnvClass
  | Residential | Industrial | Agricultural
deriving DecidableEq, Repr

/-- Water-use purpose (`purpose`). -/
inductive Purpose
  | Domestic | Irrigation | Industrial
deriving DecidableEq, Repr

/-- Soil type (`soilType`). -/
inductive SoilType
  | Sandy | Loamy | Clayey
deriving DecidableEq, Repr

/-- Catchment surface type (`catchmentType`). -/
inductive CatchType
  | Rooftop | Terrace | Paved | OpenGround
deriving DecidableEq, Repr

/-- Climatic region tag of a city record (`region`). -/
inductive Region
  | North | South | East | West | Central | Northeast
deriving DecidableEq, Repr

/-- Season names used by `getSeason`. -/
inductive Season
  | premonsoon | monsoon | postmonsoon | winter
deriving DecidableEq, Repr

/-- Borewell condition (`borewellCondition`); `PartDead` stands for the
string value Partially-Dead. -/
inductive BwCondition
  | Working | Dead | PartDead
deriving DecidableEq, Repr

/-- Budget tier (`budget`). -/
inductive Budget
  | Low | Medium | High
deriving DecidableEq, Repr

/-- Feasibility level of a result. -/
inductive FeasLevel
  | High | Medium | Low
deriving DecidableEq, Repr

/-- City reference record, shaped after `cityDataSchema` in
`shared/schema.ts` (the aquifer type is never read by the engine and is
omitted). -/
structure CityData where
  city : String
  state : String
  pincode : String
  monthlyRainfall : List ℚ
  annualRainfall : ℚ
  groundwaterDepth : ℚ
  region : Region
deriving DecidableEq, Repr

/-- Quality factors of the coefficient table (`qualityFactors`; the
`roofAge` block is never read by the engine and is omitted). -/
structure QualityFactors where
  environment : EnvClass → ℚ
  birdNesting : ℚ

/-- The `advancedFactors` block of the coefficient table. -/
structure AdvancedFactors where
  evaporationLoss : Region → ℚ
  qualityFactors : QualityFactors
  seasonalVariation : Season → ℚ
  seasonalDemandMultipliers : Purpose → List ℚ
  maintenanceAnnual : ℚ
  systemLife : ℚ

/-- Coefficient table, shaped after `coefficientsSchema` in
`shared/schema.ts` (blocks the engine never reads are omitted). -/
structure Coefficients where
  runoffCoefficients : RoofType → ℚ
  infiltrationRates : SoilType → ℚ
  baseCostPerSqm : ℚ
  budgetMultipliers : Budget → ℚ
  municipalRate : ℚ
  domesticConsumption : ℚ
  advancedFactors : AdvancedFactors

/-- Harvesting-mode input, shaped after `rainwaterInputSchema`. -/
structure RainwaterInput where
  name : String
  location : String
  pincode : String
  roofArea : ℚ
  roofType : RoofType
  environment : EnvClass
  birdNesting : Bool
  dwellers : ℚ
  purpose : Purpose
  hasOpenSpace : Bool
  openSpaceArea : Option ℚ
  groundwaterDepth : ℚ
  soilType : SoilType
  budget : Budget
deriving DecidableEq, Repr

/-- Recharge-mode input, shaped after `rechargeInputSchema` (the
`borewellCount` and `aquiferType` fields are never read by the engine and
are omitted). -/
structure RechargeInput where
  name : String
  location : String
  pincode : String
  catchmentArea : ℚ
  catchmentType : CatchType
  hasOpenSpace : Bool
  openSpaceArea : Option ℚ
  soilType : SoilType
  groundwaterDepth : ℚ
  hasBorewell : Bool
  borewellDepth : Option ℚ
  borewellCondition : Option BwCondition
  budget : Budget
deriving DecidableEq, Repr

/-- Extended numbers modelling the JavaScript special values: a finite
rational, positive infinity, negative infinity, or NaN.  Used only for
the two computations in which the engine can divide by zero (the coverage
percentage and the per-trench length); exact rational arithmetic stands
in for IEEE doubles on the finite values. -/
inductive ERat
  | fin (q : ℚ)
  | pinf
  | ninf
  | nan
deriving DecidableEq, Repr

namespace ERat

/-- JavaScript division on extended numbers (`x / 0` is a signed
infinity, `0 / 0` is NaN, NaN propagates). -/
def div : ERat → ERat → ERat
  | nan, _ => nan
  | _, nan => nan
  | fin a, fin b =>
    if b = 0 then (if a = 0 then nan else if 0 < a then pinf else ninf)
    else fin (a / b)
  | fin _, pinf => fin 0
  | fin _, ninf => fin 0
  | pinf, fin b => if 0 ≤ b then pinf else ninf
  | ninf, fin b => if 0 ≤ b then ninf else pinf
  | pinf, pinf => nan
  | pinf, ninf => nan
  | ninf, pinf => nan
  | ninf, ninf => nan

/-- JavaScript multiplication on extended numbers (`Infinity * 0` is NaN,
NaN propagates). -/
def mul : ERat → ERat → ERat
  | nan, _ => nan
  | _, nan => nan
  | fin a, fin b => fin (a * b)
  | pinf, fin b => if b = 0 then nan else if 0 < b then pinf else ninf
  | fin a, pinf => if a = 0 then nan else if 0 < a then pinf else ninf
  | ninf, fin b => if b = 0 then nan else if 0 < b then ninf else pinf
  | fin a, ninf => if a = 0 then nan else if 0 < a then ninf else pinf
  | pinf, pinf => pinf
  | pinf, ninf => ninf
  | ninf, pinf => ninf
  | ninf, ninf => pinf

/-- JavaScript `Math.round` on extended numbers (infinities and NaN map
to themselves). -/
def roundE : ERat → ERat
  | fin q => fin ((jround q : ℤ) : ℚ)
  | x => x

/-- JavaScript `Math.ceil` on extended numbers. -/
def ceilE : ERat → ERat
  | fin q => fin ((⌈q⌉ : ℤ) : ℚ)
  | x => x

/-- JavaScript `Math.min` on extended numbers (NaN absorbs). -/
def minE : ERat → ERat → ERat
  | nan, _ => nan
  | _, nan => nan
  | fin a, fin b => fin (min a b)
  | ninf, _ => ninf
  | _, ninf => ninf
  | pinf, b => b
  | a, pinf => a

/-- JavaScript `Math.max` on extended numbers (NaN absorbs). -/
def maxE : ERat → ERat → ERat
  | nan, _ => nan
  | _, nan => nan
  | fin a, fin b => fin (max a b)
  | pinf, _ => pinf
  | _, pinf => pinf
  | ninf, b => b
  | a, ninf => a

/-- JavaScript strict greater-than on extended numbers (false whenever
NaN is involved). -/
def gtB : ERat → ERat → Bool
  | nan, _ => false
  | _, nan => false
  | fin a, fin b => decide (b < a)
  | pinf, pinf => false
  | pinf, _ => true
  | _, pinf => false
  | ninf, _ => false
  | fin _, ninf => true

/-- JavaScript `Number.isFinite`. -/
def isFinite : ERat → Bool
  | fin _ => true
  | _ => false

/-- JavaScript `Number(x.toFixed(1))` for the non-negative values the
engine produces: one decimal digit kept, infinities and NaN map to
themselves. -/
def toFixed1 : ERat → ERat
  | fin q => fin ((jround (q * 10) : ℤ) / 10)
  | x => x

end ERat

/-- Faithful counterpart of a JavaScript `array.map((x, index) => ...)`
that starts counting at `n`. -/
def mapIdxFrom (f : ℕ → ℚ → ℤ) : ℕ → List ℚ → List ℤ
  | _, [] => []
  | n, r :: rs => f n r :: mapIdxFrom f (n + 1) rs

/-- Substring test on character lists: JavaScript `s.includes(sub)`. -/
def listHasSub (s sub : List Char) : Bool :=
  match s with
  | [] => sub.isEmpty
  | c :: rest => sub.isPrefixOf (c :: rest) || listHasSub rest sub

/-- JavaScript `s.includes(sub)` on strings. -/
def strHasSub (s sub : String) : Bool :=
  listHasSub s.data sub.data

/-- Embeds `getSeason` (month index 0-11 to climatic season). -/
def getSeason (monthIndex : ℕ) : Season :=
  if 2 ≤ monthIndex ∧ monthIndex ≤ 4 then .premonsoon
  else if 5 ≤ monthIndex ∧ monthIndex ≤ 8 then .monsoon
  else if 9 ≤ monthIndex ∧ monthIndex ≤ 10 then .postmonsoon
  else .winter

/-- Embeds `calculateQualityFactor`: the environment factor, multiplied
by the bird-nesting factor when the flag is set. -/
def calculateQualityFactor (co : Coefficients) (u : RainwaterInput) : ℚ :=
  let qualityFactor := co.advancedFactors.qualityFactors.environment u.environment
  if u.birdNesting then qualityFactor * co.advancedFactors.qualityFactors.birdNesting
  else qualityFactor

/-- Annual and monthly potential, the return shape of the two potential
estimators. -/
structure PotOut where
  annual : ℤ
  monthly : List ℤ
deriving DecidableEq, Repr

/-- Embeds `calculateRainwaterPotential`: per month,
`round(area * rainfall * runoff * quality * seasonal * (1 - evaporation))`,
annual is the sum of the rounded months. -/
def calculateRainwaterPotential (co : Coefficients) (u : RainwaterInput)
    (c : CityData) : PotOut :=
  let runoffCoeff := co.runoffCoefficients u.roofType
  let qualityFactor := calculateQualityFactor co u
  let evaporationLoss := co.advancedFactors.evaporationLoss c.region
  let monthly := mapIdxFrom (fun i rainfall =>
    let seasonalFactor := co.advancedFactors.seasonalVariation (getSeason i)
    jround (u.roofArea * rainfall * runoffCoeff * qualityFactor * seasonalFactor *
      (1 - evaporationLoss))) 0 c.monthlyRainfall
  { annual := monthly.sum, monthly := monthly }

/-- The catchment-type runoff coefficients hard-coded in
`calculateRechargePotential`. -/
def catchmentCoeff : CatchType → ℚ
  | .Rooftop => 0.85
  | .Terrace => 0.90
  | .Paved => 0.80
  | .OpenGround => 0.20

/-- Embeds `calculateRechargePotential`: no quality factor, catchment
coefficient instead of the roof one, evaporation loss at half weight. -/
def calculateRechargePotential (co : Coefficients) (u : RechargeInput)
    (c : CityData) : PotOut :=
  let runoffCoeff := catchmentCoeff u.catchmentType
  let evaporationLoss := co.advancedFactors.evaporationLoss c.region
  let monthly := mapIdxFrom (fun i rainfall =>
    let seasonalFactor := co.advancedFactors.seasonalVariation (getSeason i)
    jround (u.catchmentArea * rainfall * runoffCoeff * seasonalFactor *
      (1 - evaporationLoss * 0.5))) 0 c.monthlyRainfall
  { annual := monthly.sum, monthly := monthly }

/-- Purpose factor of `calculateHouseholdDemand` (starts at 1.0, 1.8 for
irrigation, 2.3 for industrial). -/
def purposeFactor : Purpose → ℚ
  | .Irrigation => 1.8
  | .Industrial => 2.3
  | .Domestic => 1

/-- The hard-coded month lengths of `calculateHouseholdDemand`. -/
def daysInMonths : List ℚ := [31, 28, 31, 30, 31, 30, 31, 31, 30, 31, 30, 31]

/-- Embeds `calculateHouseholdDemand`: sum over the twelve months of
`dwellers * dailyConsumption * daysInMonth * purposeFactor * multiplier`,
rounded at the end. -/
def calculateHouseholdDemand (co : Coefficients) (u : RainwaterInput) : ℤ :=
  let dailyConsumption := co.domesticConsumption
  let monthlyMultipliers := co.advancedFactors.seasonalDemandMultipliers u.purpose
  jround ((List.zipWith
    (fun d m => u.dwellers * dailyConsumption * d * purposeFactor u.purpose * m)
    daysInMonths monthlyMultipliers).sum)

/-- Loop body of `calculateDryPeriodStorage`: walk the months carrying
the cumulative deficit (floored at zero) and its historical maximum. -/
def dryPeriodGo (monthlyDemand : ℚ) : List ℤ → ℚ → ℚ → ℚ
  | [], _, maxDeficit => maxDeficit
  | p :: rest, cumulative, maxDeficit =>
    let cumulative2 := max 0 (cumulative + (monthlyDemand - (p : ℚ)))
    dryPeriodGo monthlyDemand rest cumulative2 (max maxDeficit cumulative2)

/-- Embeds `calculateDryPeriodStorage`. -/
def calculateDryPeriodStorage (monthlyPotential : List ℤ) (householdDemand : ℤ) : ℤ :=
  jround (dryPeriodGo ((householdDemand : ℚ) / 12) monthlyPotential 0 0)

/-- Embeds `calculateMonsoonSurplus`: positive excess of the four monsoon
months (indices 5-8) over flat monthly demand, rounded at the end. -/
def calculateMonsoonSurplus (monthlyPotential : List ℤ) (householdDemand : ℤ) : ℤ :=
  let monthlyDemand : ℚ := (householdDemand : ℚ) / 12
  let surplusAt := fun (i : ℕ) =>
    let s : ℚ := ((monthlyPotential.getD i 0 : ℤ) : ℚ) - monthlyDemand
    if 0 < s then s else 0
  jround (surplusAt 5 + surplusAt 6 + surplusAt 7 + surplusAt 8)

/-- Embeds the capacity computation of `calculateStorageTank`; the tank
dimensions (which need a square root and pi) are not modelled, no claim
mentions them. -/
def calculateStorageTank (rainwaterPotential : ℤ) (monthlyPotential : List ℤ)
    (householdDemand : ℤ) : ℤ :=
  let dryPeriodStorage := calculateDryPeriodStorage monthlyPotential householdDemand
  let monsoonSurplus := calculateMonsoonSurplus monthlyPotential householdDemand
  let demandBasedCapacity := jround ((householdDemand : ℚ) / 365 * 45)
  let potentialBasedCapacity := jround ((rainwaterPotential : ℚ) * 0.25)
  let monsoonBasedCapacity : ℚ := min (monsoonSurplus : ℚ) 20000
  let tankCapacity1 : ℚ :=
    max (max (min (demandBasedCapacity : ℚ) (potentialBasedCapacity : ℚ))
      ((dryPeriodStorage : ℚ) * 0.8)) 3000
  let tankCapacity2 : ℚ := max 3000 (min tankCapacity1 monsoonBasedCapacity)
  jround tankCapacity2

/-- Embeds `findCityData`: first pincode-prefix match, then fuzzy
city/state name match, then the Delhi fallback, then the first entry. -/
def findCityData (cities : List CityData) (location pincode : String) :
    Option CityData :=
  let byPin := cities.find? (fun city => city.pincode.startsWith (pincode.take 3))
  let byFuzzy := match byPin with
    | some c => some c
    | none =>
      let locationLower := location.toLower
      cities.find? (fun city =>
        strHasSub city.city.toLower locationLower ||
        strHasSub locationLower city.city.toLower ||
        strHasSub city.state.toLower locationLower)
  match byFuzzy with
  | some c => some c
  | none =>
    match cities.find? (fun city => city.city == "Delhi") with
    | some c => some c
    | none => cities.head?

/-- Embeds `calculateFiltrationCost` (12000 base for domestic purpose,
escalated for industrial environment and bird nesting). -/
def calculateFiltrationCost (u : RainwaterInput) : ℤ :=
  let baseCost1 : ℚ := if u.purpose = .Domestic then 12000 else 5000
  let baseCost2 := if u.environment = .Industrial then baseCost1 * 1.5 else baseCost1
  let baseCost3 := if u.birdNesting then baseCost2 * 1.2 else baseCost2
  jround baseCost3

/-- The roof-type efficiency map of `calculateSystemEfficiency`. -/
def roofEfficiency : RoofType → ℚ
  | .RCC => 0.95
  | .GI => 1
  | .Asbestos => 0.85
  | .Tiles => 0.90

/-- Embeds `calculateSystemEfficiency`. -/
def calculateSystemEfficiency (u : RainwaterInput) (tankCapacity : ℤ) : ℚ :=
  let efficiency1 : ℚ :=
    if (tankCapacity : ℚ) < 3000 then 0.85 * 0.9
    else if (tankCapacity : ℚ) > 10000 then 0.85 * 1.05
    else 0.85
  let efficiency2 := efficiency1 * roofEfficiency u.roofType
  let efficiency3 := if u.environment = .Industrial then efficiency2 * 0.92 else efficiency2
  let efficiency4 := if u.birdNesting then efficiency3 * 0.95 else efficiency3
  min efficiency4 0.95

/-- Cost block of a harvesting result. -/
structure CostOut where
  systemCostLow : ℤ
  systemCostMedium : ℤ
  systemCostHigh : ℤ
  annualSavings : ℤ
  paybackPeriod : ℤ
  lifeCycleCost : ℚ
  maintenanceCost : ℤ
deriving DecidableEq, Repr

/-- Embeds `calculateRainwaterCosts`; the payback denominator carries the
source's `Math.max(annualSavings - annualMaintenance, 1)` guard and the
payback is capped at 25 years. -/
def calculateRainwaterCosts (co : Coefficients) (u : RainwaterInput)
    (rainwaterPotential tankCapacity : ℤ) : CostOut :=
  let baseCost := u.roofArea * co.baseCostPerSqm
  let tankCost : ℚ := (tankCapacity : ℚ) * (if (tankCapacity : ℚ) > 10000 then 0.75 else 0.85)
  let pumpCost : ℚ := if (tankCapacity : ℚ) > 5000 then 8000 else 4500
  let filtrationCost := calculateFiltrationCost u
  let totalBaseCost := baseCost + tankCost + pumpCost + (filtrationCost : ℚ)
  let low := jround (totalBaseCost * co.budgetMultipliers .Low)
  let medium := jround (totalBaseCost * co.budgetMultipliers .Medium)
  let high := jround (totalBaseCost * co.budgetMultipliers .High)
  let householdDemand := calculateHouseholdDemand co u
  let systemEfficiency := calculateSystemEfficiency u tankCapacity
  let usableWater : ℚ := min ((rainwaterPotential : ℚ) * systemEfficiency) (householdDemand : ℚ)
  let qualityPremium : ℚ := if u.purpose = .Domestic then 0.015 else 0.005
  let annualSavings := jround (usableWater * (co.municipalRate + qualityPremium))
  let annualMaintenance : ℚ := (medium : ℚ) * co.advancedFactors.maintenanceAnnual
  let lifeCycleCost : ℚ := (medium : ℚ) + annualMaintenance * co.advancedFactors.systemLife
  let paybackPeriod := jround ((medium : ℚ) / max ((annualSavings : ℚ) - annualMaintenance) 1)
  { systemCostLow := low
    systemCostMedium := medium
    systemCostHigh := high
    annualSavings := annualSavings
    paybackPeriod := min paybackPeriod 25
    lifeCycleCost := lifeCycleCost
    maintenanceCost := jround annualMaintenance }

/-- Cost block of a recharge result. -/
structure RcCostOut where
  systemCostLow : ℤ
  systemCostMedium : ℤ
  systemCostHigh : ℤ
  paybackPeriod : ℤ
  lifeCycleCost : ℚ
  maintenanceCost : ℤ
  groundwaterBenefit : ℤ
deriving DecidableEq, Repr

/-- Embeds `calculateRechargeCosts`; the payback denominator carries the
source's `Math.max(borewellSavings, 1)` guard and the payback is capped
at 30 years. -/
def calculateRechargeCosts (co : Coefficients) (u : RechargeInput)
    (rechargeVolume : ℤ) : RcCostOut :=
  let baseCost := u.catchmentArea * 250
  let pitCost : ℚ := 45000
  let trenchCost : ℚ := match u.hasOpenSpace, u.openSpaceArea with
    | true, some a => if a = 0 then 0 else a * 150
    | _, _ => 0
  let borewellRechargeCost : ℚ := if u.hasBorewell then 35000 else 0
  let totalBaseCost := baseCost + pitCost + trenchCost + borewellRechargeCost
  let low := jround (totalBaseCost * co.budgetMultipliers .Low)
  let medium := jround (totalBaseCost * co.budgetMultipliers .Medium)
  let high := jround (totalBaseCost * co.budgetMultipliers .High)
  let annualMaintenance : ℚ := (medium : ℚ) * 0.03
  let lifeCycleCost : ℚ := (medium : ℚ) + annualMaintenance * co.advancedFactors.systemLife
  let borewellSavings : ℚ := if u.hasBorewell then 12000 else 5000
  let paybackPeriod := jround ((medium : ℚ) / max borewellSavings 1)
  { systemCostLow := low
    systemCostMedium := medium
    systemCostHigh := high
    paybackPeriod := min paybackPeriod 30
    lifeCycleCost := lifeCycleCost
    maintenanceCost := jround annualMaintenance
    groundwaterBenefit := rechargeVolume }

/-- Recharge-pit dimensions. -/
structure PitDims where
  length : ℤ
  width : ℤ
  depth : ℚ
deriving DecidableEq, Repr

/-- Embeds `calculateRechargePit`.  `sq` stands for JavaScript
`Math.sqrt`, passed as a parameter because exact square roots leave the
rationals; only its value at the concrete argument matters. -/
def calculateRechargePit (sq : ℚ → ℚ) (co : Coefficients) (u : RechargeInput)
    (rainwaterPotential : ℤ) : Option PitDims :=
  let infiltrationRate := co.infiltrationRates u.soilType
  let dailyInflowRate : ℚ := (rainwaterPotential : ℚ) / 120
  let operatingHours : ℚ := 8
  let infiltrationRateMs := infiltrationRate / 1000
  let minPitArea : ℚ := max 9 (dailyInflowRate / (infiltrationRateMs * operatingHours * 1000))
  let maxDepth : ℚ := min 4 (max 2 (u.groundwaterDepth * 0.3))
  let pitSide : ℤ := ⌈sq minPitArea⌉
  some { length := max pitSide 3, width := max pitSide 3, depth := maxDepth }

/-- Trench dimensions; length and count live in the extended numbers
because the per-trench length divides by the unclamped trench count,
which can be zero. -/
structure TrenchDims where
  length : ERat
  width : ℚ
  depth : ℚ
  count : ERat
deriving DecidableEq, Repr

/-- Embeds `calculateTrenchDimensions`.  Returns `none` when the open
space flag is off or the area is absent or zero (JavaScript falsiness of
`userInput.openSpaceArea`); `sq` stands for `Math.sqrt`. -/
def calculateTrenchDimensions (sq : ℚ → ℚ) (co : Coefficients) (u : RechargeInput)
    (rechargeVolume : ℤ) : Option TrenchDims :=
  match u.hasOpenSpace, u.openSpaceArea with
  | true, some openSpaceArea =>
    if openSpaceArea = 0 then none
    else
      let infiltrationRate := co.infiltrationRates u.soilType
      let trenchWidth : ℚ := 0.5
      let trenchDepth : ℚ := min 1.5 (u.groundwaterDepth * 0.15)
      let dailyInflowRate : ERat := .fin (((rechargeVolume : ℚ) * 1000) / 120)
      let infiltrationRateMs : ℚ := infiltrationRate / 1000
      let trenchArea : ERat := dailyInflowRate.div (.fin (infiltrationRateMs * 8 * 1000))
      let totalTrenchLength : ERat := trenchArea.div (.fin trenchWidth)
      let maxTrenchLength : ℚ := sq openSpaceArea * 0.8
      let trenchCount : ERat := (totalTrenchLength.div (.fin maxTrenchLength)).ceilE
      let actualTrenchLength : ERat := totalTrenchLength.div trenchCount
      some { length := actualTrenchLength.toFixed1
             width := trenchWidth
             depth := trenchDepth
             count := ERat.maxE (.fin 1) trenchCount }
  | _, _ => none

/-- Borewell rejuvenation advice. -/
structure BwRejuv where
  recommended : Bool
  method : String
  expectedImprovement : String
deriving DecidableEq, Repr

/-- Embeds `calculateBorewellRejuvenation` (fixed lookup by condition). -/
def calculateBorewellRejuvenation (u : RechargeInput) : Option BwRejuv :=
  match u.hasBorewell, u.borewellCondition with
  | true, some cond =>
    match cond with
    | .Dead => some
        { recommended := true
          method := "Direct recharge through borewell with filter media and sedimentation chamber"
          expectedImprovement := "60-80% recovery possible with direct recharge. Expected yield: 2000-4000 LPH" }
    | .PartDead => some
        { recommended := true
          method := "Recharge pit near borewell (5m distance) with gravel and sand filter layers"
          expectedImprovement := "40-60% improvement in yield. Expected increase: 1500-3000 LPH" }
    | .Working => some
        { recommended := true
          method := "Preventive recharge pit to maintain borewell health and increase groundwater table"
          expectedImprovement := "20-30% yield improvement and extended borewell life" }
  | _, _ => none

/-- Embeds `calculateBorewellRechargeCapacity`; `none` when the borewell
flag is off or the depth is absent or zero (JavaScript falsiness). -/
def calculateBorewellRechargeCapacity (u : RechargeInput) : Option ℤ :=
  match u.hasBorewell, u.borewellDepth with
  | true, some depth =>
    if depth = 0 then none
    else
      let depthFactor : ℚ := min 1.5 (depth / 30)
      let conditionFactor : ℚ := match u.borewellCondition with
        | some .Dead => 0.6
        | some .PartDead => 0.75
        | _ => 1
      some (jround (2000 * depthFactor * conditionFactor))
  | _, _ => none

/-- One scoring tier: the points it adds and the recommendation and
warning strings it pushes. -/
structure Tier where
  points : ℤ
  recs : List String
  warns : List String
deriving DecidableEq, Repr

/-- Display name of a roof type, used in template strings. -/
def roofTypeName : RoofType → String
  | .RCC => "RCC"
  | .GI => "GI"
  | .Asbestos => "Asbestos"
  | .Tiles => "Tiles"

/-- Rainfall tier of `calculateRainwaterFeasibility` (+25 / +15 / +5). -/
def rainfallTierRW (c : CityData) : Tier :=
  if c.annualRainfall > 1000 then
    ⟨25, ["Excellent rainfall - consider larger storage capacity"], []⟩
  else if c.annualRainfall > 600 then ⟨15, [], []⟩
  else ⟨5, [], ["Low rainfall area - consider supplementary water sources"]⟩

/-- Roof tier of `calculateRainwaterFeasibility`: +20 for RCC or GI with
a recommendation, +10 with a cleaning warning for every other type. -/
def roofTierRW (rt : RoofType) : Tier :=
  if rt = .RCC ∨ rt = .GI then
    ⟨20, [roofTypeName rt ++ " roof is excellent for rainwater harvesting"], []⟩
  else ⟨10, [], ["Regular roof cleaning and maintenance required"]⟩

/-- Coverage tier of `calculateRainwaterFeasibility` (+10 / +7 / +3); the
coverage is an extended number because it divides by the demand. -/
def coverageTierRW (coverage : ERat) : Tier :=
  if coverage.gtB (.fin 80) then
    ⟨10, ["Excellent coverage - system will meet most water needs"], []⟩
  else if coverage.gtB (.fin 50) then ⟨7, [], []⟩
  else ⟨3, ["Partial coverage - combine with water conservation"], []⟩

/-- Feasibility block of a result. -/
structure FeasOut where
  rawScore : ℤ
  feasibilityScore : ℤ
  feasibilityLevel : FeasLevel
  recommendations : List String
  warnings : List String
deriving DecidableEq, Repr

/-- The level ladder `score >= 80 ? High : score >= 60 ? Medium : Low`
shared by both scorers. -/
def feasLevelOf (score : ℤ) : FeasLevel :=
  if score ≥ 80 then .High else if score ≥ 60 then .Medium else .Low

/-- Embeds `calculateRainwaterFeasibility`: base 50 plus the rainfall,
roof and coverage tiers; `rawScore` is the source's local `score` before
the `Math.min(100, score)` clamp. -/
def calculateRainwaterFeasibility (u : RainwaterInput) (c : CityData)
    (rainwaterPotential householdDemand : ℤ) : FeasOut :=
  let t1 := rainfallTierRW c
  let t2 := roofTierRW u.roofType
  let coverage : ERat :=
    (ERat.div (.fin (rainwaterPotential : ℚ)) (.fin (householdDemand : ℚ))).mul (.fin 100)
  let t3 := coverageTierRW coverage
  let score := 50 + t1.points + t2.points + t3.points
  { rawScore := score
    feasibilityScore := min 100 score
    feasibilityLevel := feasLevelOf score
    recommendations := t1.recs ++ t2.recs ++ t3.recs ++
      ["Install first flush diverter for water quality"] ++
      (if u.purpose = .Domestic then ["Consider UV/RO purification for drinking water"] else [])
    warnings := t1.warns ++ t2.warns ++ t3.warns }

/-- Rainfall tier of `calculateRechargeFeasibility` (+20 / +12 / +5). -/
def rainfallTierAR (c : CityData) : Tier :=
  if c.annualRainfall > 1000 then
    ⟨20, ["Excellent rainfall - high recharge potential"], []⟩
  else if c.annualRainfall > 600 then ⟨12, [], []⟩
  else ⟨5, [], ["Moderate rainfall - recharge benefits will be seasonal"]⟩

/-- Soil tier of `calculateRechargeFeasibility` (+25 / +18 / +10). -/
def soilTierAR : SoilType → Tier
  | .Sandy => ⟨25, ["Sandy soil is ideal for rapid groundwater recharge"], []⟩
  | .Loamy => ⟨18, ["Loamy soil provides good infiltration rates"], []⟩
  | .Clayey => ⟨10, ["Clayey soil requires larger recharge structures for effectiveness"],
      ["Slow infiltration - ensure proper pit/trench dimensions"]⟩

/-- Groundwater-depth tier of `calculateRechargeFeasibility`
(+15 / +5 / +10). -/
def gwTierAR (depth : ℚ) : Tier :=
  if depth > 3 ∧ depth < 30 then
    ⟨15, ["Optimal groundwater depth for recharge systems"], []⟩
  else if depth ≤ 3 then ⟨5, [], ["Shallow groundwater - monitor for waterlogging"]⟩
  else ⟨10, [], ["Deep groundwater - recharge benefits may take time"]⟩

/-- Conditional borewell tier of `calculateRechargeFeasibility`
(+10 for a dead borewell, +8 for a partially dead one, else nothing). -/
def borewellTierAR (u : RechargeInput) : Tier :=
  if u.hasBorewell ∧ u.borewellCondition = some .Dead then
    ⟨10, ["Direct borewell recharge recommended for rejuvenation",
          "Install filter chamber before borewell to prevent clogging"], []⟩
  else if u.hasBorewell ∧ u.borewellCondition = some .PartDead then
    ⟨8, ["Recharge pit near borewell will improve yield significantly"], []⟩
  else ⟨0, [], []⟩

/-- Conditional open-space tier of `calculateRechargeFeasibility`
(+10 with trench recommendations, or a restriction warning). -/
def openSpaceTierAR (u : RechargeInput) : Tier :=
  match u.hasOpenSpace, u.openSpaceArea with
  | true, some a =>
    if a = 0 then ⟨0, [], ["Limited open space - recharge options restricted to pits only"]⟩
    else
      ⟨10, ["Construct " ++ toString ⌈a / 20⌉ ++ " percolation trenches for distributed recharge",
            "Trenches should be 0.5m wide, 1-1.5m deep, filled with gravel and sand layers"], []⟩
  | _, _ => ⟨0, [], ["Limited open space - recharge options restricted to pits only"]⟩

/-- Embeds `calculateRechargeFeasibility`: base 50 plus the rainfall,
soil, groundwater, borewell and open-space tiers, then two boilerplate
recommendations; `rawScore` is the source's local `score` before the
clamp.  (The source's `rechargeVolume` parameter is never read.) -/
def calculateRechargeFeasibility (u : RechargeInput) (c : CityData)
    (rechargeVolume : ℤ) : FeasOut :=
  let t1 := rainfallTierAR c
  let t2 := soilTierAR u.soilType
  let t3 := gwTierAR u.groundwaterDepth
  let t4 := borewellTierAR u
  let t5 := openSpaceTierAR u
  let score := 50 + t1.points + t2.points + t3.points + t4.points + t5.points
  { rawScore := score
    feasibilityScore := min 100 score
    feasibilityLevel := feasLevelOf score
    recommendations := t1.recs ++ t2.recs ++ t3.recs ++ t4.recs ++ t5.recs ++
      ["Regular maintenance: clean recharge structures before monsoon",
       "Monitor groundwater level changes annually to assess effectiveness"]
    warnings := t1.warns ++ t2.warns ++ t3.warns ++ t4.warns ++ t5.warns }

/-- Roof-suitability tier of the legacy combined scorer
`calculateFeasibility` (the first engine file): this variant keeps a
separate +15 tier for tiles. -/
def legacyRoofTier (rt : RoofType) : Tier :=
  if rt = .RCC ∨ rt = .GI then
    ⟨20, [roofTypeName rt ++ " roof is excellent for rainwater harvesting"], []⟩
  else if rt = .Tiles then
    ⟨15, ["Clay/concrete tiles are suitable with proper first flush diverter"], []⟩
  else ⟨10, [], ["Asbestos roofs require regular cleaning and filtration"]⟩

/-- The coverage percentage line of `calculateRainwaterHarvesting`:
`Math.min(100, Math.round((rainwaterPotential / householdDemand) * 100))`
over extended numbers, with no guard on the demand. -/
def covPercE (rainwaterPotential householdDemand : ℤ) : ERat :=
  ERat.minE (.fin 100)
    (ERat.roundE ((ERat.div (.fin (rainwaterPotential : ℚ))
      (.fin (householdDemand : ℚ))).mul (.fin 100)))

/-- Harvesting result record (tank dimensions omitted, see
`calculateStorageTank`). -/
structure RainwaterResults where
  rainwaterPotential : ℤ
  monthlyPotential : List ℤ
  householdDemand : ℤ
  coveragePercentage : ERat
  firstFlush : ℤ
  tankCapacity : ℤ
  costs : CostOut
  feas : FeasOut
deriving DecidableEq, Repr

/-- Embeds `calculateRainwaterHarvesting`: resolves the city (throwing,
i.e. `Except.error`, when resolution fails) and assembles the full
result. -/
def calculateRainwaterHarvesting (cities : List CityData) (co : Coefficients)
    (u : RainwaterInput) : Except String RainwaterResults :=
  match findCityData cities u.location u.pincode with
  | none => .error "City data not found"
  | some cityData =>
    let pot := calculateRainwaterPotential co u cityData
    let householdDemand := calculateHouseholdDemand co u
    let coveragePercentage := covPercE pot.annual householdDemand
    let firstFlush := jround (u.roofArea * 2)
    let tankCapacity := calculateStorageTank pot.annual pot.monthly householdDemand
    let costs := calculateRainwaterCosts co u pot.annual tankCapacity
    let feas := calculateRainwaterFeasibility u cityData pot.annual householdDemand
    .ok { rainwaterPotential := pot.annual
          monthlyPotential := pot.monthly
          householdDemand := householdDemand
          coveragePercentage := coveragePercentage
          firstFlush := firstFlush
          tankCapacity := tankCapacity
          costs := costs
          feas := feas }

/-- Recharge result record. -/
structure RechargeResults where
  rainwaterPotential : ℤ
  monthlyPotential : List ℤ
  rechargeVolume : ℤ
  pitDimensions : Option PitDims
  trenchDimensions : Option TrenchDims
  borewellRechargeCapacity : Option ℤ
  borewellRejuvenation : Option BwRejuv
  costs : RcCostOut
  feas : FeasOut
deriving DecidableEq, Repr

/-- Embeds `calculateArtificialRecharge`; `sq` stands for `Math.sqrt`. -/
def calculateArtificialRecharge (sq : ℚ → ℚ) (cities : List CityData)
    (co : Coefficients) (u : RechargeInput) : Except String RechargeResults :=
  match findCityData cities u.location u.pincode with
  | none => .error "City data not found"
  | some cityData =>
    let pot := calculateRechargePotential co u cityData
    let rechargeFactor : ℚ := match u.soilType with
      | .Sandy => 0.9
      | .Loamy => 0.8
      | .Clayey => 0.7
    let rechargeVolume := jround ((pot.annual : ℚ) / 1000 * rechargeFactor)
    let pitDimensions := calculateRechargePit sq co u pot.annual
    let trenchDimensions := calculateTrenchDimensions sq co u rechargeVolume
    let borewellRejuvenation := calculateBorewellRejuvenation u
    let borewellRechargeCapacity := calculateBorewellRechargeCapacity u
    let costs := calculateRechargeCosts co u rechargeVolume
    let feas := calculateRechargeFeasibility u cityData rechargeVolume
    .ok { rainwaterPotential := pot.annual
          monthlyPotential := pot.monthly
          rechargeVolume := rechargeVolume
          pitDimensions := pitDimensions
          trenchDimensions := trenchDimensions
          borewellRechargeCapacity := borewellRechargeCapacity
          borewellRejuvenation := borewellRejuvenation
          costs := costs
          feas := feas }

/-! Basic facts about the rounding function and the indexed map. -/

theorem jround_le (q : ℚ) : (jround q : ℚ) ≤ q + 1/2 :=
  Int.floor_le _

theorem lt_jround (q : ℚ) : q - 1/2 < (jround q : ℚ) := by
  have h := Int.sub_one_lt_floor (q + 1/2)
  unfold jround
  linarith

theorem jround_mono {a b : ℚ} (h : a ≤ b) : jround a ≤ jround b :=
  Int.floor_le_floor (by linarith)

theorem le_jround {z : ℤ} {q : ℚ} (h : (z : ℚ) ≤ q) : z ≤ jround q :=
  Int.le_floor.mpr (by linarith)

theorem jround_nonneg {q : ℚ} (h : 0 ≤ q) : 0 ≤ jround q :=
  le_jround (by exact_mod_cast h)

theorem jround_lt_jround {a b : ℚ} (h : a + 1 < b) : jround a < jround b := by
  have h1 := jround_le a
  have h2 := lt_jround b
  have h3 : (jround a : ℚ) < (jround b : ℚ) := by linarith
  exact_mod_cast h3

theorem jround_intCast (z : ℤ) : jround (z : ℚ) = z := by
  unfold jround
  rw [Int.floor_eq_iff]
  refine ⟨by linarith, by linarith⟩

theorem mapIdxFrom_length (f : ℕ → ℚ → ℤ) :
    ∀ (n : ℕ) (l : List ℚ), (mapIdxFrom f n l).length = l.length := by
  intro n l
  induction l generalizing n with
  | nil => rfl
  | cons r rs ih => simpa [mapIdxFrom] using ih (n + 1)

theorem mapIdxFrom_getD (f : ℕ → ℚ → ℤ) :
    ∀ (l : List ℚ) (n i : ℕ), i < l.length →
      (mapIdxFrom f n l).getD i 0 = f (n + i) (l.getD i 0) := by
  intro l
  induction l with
  | nil => intro n i h; simp at h
  | cons r rs ih =>
    intro n i h
    cases i with
    | zero => simp [mapIdxFrom]
    | succ j =>
      have hj : j < rs.length := by simpa using h
      have ih2 := ih (n + 1) j hj
      show (mapIdxFrom f n (r :: rs)).getD (j + 1) 0 = f (n + (j + 1)) ((r :: rs).getD (j + 1) 0)
      simp only [mapIdxFrom, List.getD_cons_succ]
      rw [ih2]
      have harg : n + 1 + j = n + (j + 1) := by omega
      rw [harg]

theorem mapIdxFrom_sum (f : ℕ → ℚ → ℤ) :
    ∀ (l : List ℚ) (n : ℕ),
      (mapIdxFrom f n l).sum = ∑ i ∈ Finset.range l.length, f (n + i) (l.getD i 0) := by
  intro l
  induction l with
  | nil => intro n; simp [mapIdxFrom]
  | cons r rs ih =>
    intro n
    rw [List.length_cons, Finset.sum_range_succ']
    simp only [mapIdxFrom, List.sum_cons]
    rw [ih (n + 1)]
    simp only [List.getD_cons_succ, List.getD_cons_zero, Nat.add_zero]
    have harg : ∀ i : ℕ, n + 1 + i = n + (i + 1) := fun i => by omega
    simp only [harg]
    exact add_comm _ _

theorem mapIdxFrom_nonneg {f : ℕ → ℚ → ℤ} {l : List ℚ}
    (h : ∀ i r, r ∈ l → 0 ≤ f i r) :
    ∀ n, ∀ x ∈ mapIdxFrom f n l, 0 ≤ x := by
  induction l with
  | nil => intro n x hx; simp [mapIdxFrom] at hx
  | cons r rs ih =>
    intro n x hx
    simp only [mapIdxFrom, List.mem_cons] at hx
    rcases hx with hx | hx
    · exact hx ▸ h n r (List.mem_cons_self r rs)
    · exact ih (fun i q hq => h i q (List.mem_cons_of_mem r hq)) (n + 1) x hx

/-! Concrete reference data used by witnesses and counterexamples.  The
JSON data files are not part of the sources; these tables follow the
shape of `coefficientsSchema` and `cityDataSchema` with representative
values. -/

/-- Sample coefficient table. -/
def coS : Coefficients :=
  { runoffCoefficients := fun rt => match rt with
      | .RCC => 0.85 | .GI => 0.9 | .Asbestos => 0.8 | .Tiles => 0.75
    infiltrationRates := fun s => match s with
      | .Sandy => 25 | .Loamy => 12 | .Clayey => 5
    baseCostPerSqm := 150
    budgetMultipliers := fun b => match b with
      | .Low => 0.8 | .Medium => 1 | .High => 1.3
    municipalRate := 0.02
    domesticConsumption := 135
    advancedFactors :=
      { evaporationLoss := fun _ => 0.1
        qualityFactors := { environment := fun _ => 0.9, birdNesting := 0.85 }
        seasonalVariation := fun s => match s with
          | .premonsoon => 0.9 | .monsoon => 1 | .postmonsoon => 0.95 | .winter => 0.85
        seasonalDemandMultipliers := fun _ => [1, 1, 1, 1, 1, 1, 1, 1, 1, 1, 1, 1]
        maintenanceAnnual := 0.02
        systemLife := 20 } }

/-- Sample city record (low annual rainfall). -/
def cityDry : CityData :=
  { city := "Delhi"
    state := "Delhi"
    pincode := "110001"
    monthlyRainfall := [19, 20, 17, 7, 8, 65, 211, 173, 150, 31, 1, 5]
    annualRainfall := 707
    groundwaterDepth := 10
    region := .North }

/-- Sample city record (annual rainfall above 1000 mm). -/
def cityWet : CityData :=
  { city := "Mumbai"
    state := "Maharashtra"
    pincode := "400001"
    monthlyRainfall := [10, 10, 15, 40, 120, 260, 320, 300, 200, 80, 30, 15]
    annualRainfall := 1400
    groundwaterDepth := 8
    region := .West }

/-- Sample harvesting input. -/
def uRW : RainwaterInput :=
  { name := "Sample User"
    location := "Delhi"
    pincode := "110001"
    roofArea := 150
    roofType := .RCC
    environment := .Residential
    birdNesting := false
    dwellers := 4
    purpose := .Domestic
    hasOpenSpace := false
    openSpaceArea := none
    groundwaterDepth := 10
    soilType := .Sandy
    budget := .Medium }

/-- Sample recharge input with open space. -/
def uAR : RechargeInput :=
  { name := "Sample User"
    location := "Delhi"
    pincode := "110001"
    catchmentArea := 200
    catchmentType := .Rooftop
    hasOpenSpace := true
    openSpaceArea := some 100
    soilType := .Sandy
    groundwaterDepth := 10
    hasBorewell := false
    borewellDepth := none
    borewellCondition := none
    budget := .Medium }

/-! Claim C3: the tank capacity closed form and its 3000-litre floor. -/

/-- Claim C3: for every harvesting input the tank capacity equals
`round(max(3000, min(max(min(demandBased, potentialBased),
0.8 * maxDryPeriodDeficit, 3000), min(monsoonSurplus, 20000))))` with
`demandBased = round(45 days of average demand)` and
`potentialBased = round(25 percent of the annual potential)`, and the
capacity is never below 3000 litres. -/
theorem c3_storage_tank_capacity (rainwaterPotential : ℤ)
    (monthlyPotential : List ℤ) (householdDemand : ℤ) :
    calculateStorageTank rainwaterPotential monthlyPotential householdDemand =
      jround (max 3000
        (min (max (max (min (jround ((householdDemand : ℚ) / 365 * 45) : ℚ)
                        (jround ((rainwaterPotential : ℚ) * 0.25) : ℚ))
                   (0.8 * (calculateDryPeriodStorage monthlyPotential householdDemand : ℚ)))
              3000)
          (min (calculateMonsoonSurplus monthlyPotential householdDemand : ℚ) 20000))) ∧
    3000 ≤ calculateStorageTank rainwaterPotential monthlyPotential householdDemand := by
  constructor
  · simp only [calculateStorageTank]
    congr 1
    rw [mul_comm ((calculateDryPeriodStorage monthlyPotential householdDemand : ℚ)) (0.8 : ℚ)]
  · simp only [calculateStorageTank]
    exact le_jround (by push_cast; exact le_max_left _ _)

/-! Claims C4 and C9: score clamping, level thresholds, and the minimum
reachable scores.  The tier lemmas below enumerate the possible point
contributions of each scoring tier. -/

theorem rainfallTierRW_points (c : CityData) :
    (rainfallTierRW c).points = 25 ∨ (rainfallTierRW c).points = 15 ∨
      (rainfallTierRW c).points = 5 := by
  unfold rainfallTierRW
  split_ifs <;> simp

theorem roofTierRW_points (rt : RoofType) :
    (roofTierRW rt).points = 20 ∨ (roofTierRW rt).points = 10 := by
  unfold roofTierRW
  split_ifs <;> simp

theorem coverageTierRW_points (e : ERat) :
    (coverageTierRW e).points = 10 ∨ (coverageTierRW e).points = 7 ∨
      (coverageTierRW e).points = 3 := by
  unfold coverageTierRW
  split_ifs <;> simp

theorem rainfallTierAR_points (c : CityData) :
    (rainfallTierAR c).points = 20 ∨ (rainfallTierAR c).points = 12 ∨
      (rainfallTierAR c).points = 5 := by
  unfold rainfallTierAR
  split_ifs <;> simp

theorem soilTierAR_points (s : SoilType) :
    (soilTierAR s).points = 25 ∨ (soilTierAR s).points = 18 ∨
      (soilTierAR s).points = 10 := by
  cases s <;> simp [soilTierAR]

theorem gwTierAR_points (d : ℚ) :
    (gwTierAR d).points = 15 ∨ (gwTierAR d).points = 5 ∨ (gwTierAR d).points = 10 := by
  unfold gwTierAR
  split_ifs <;> simp

theorem borewellTierAR_points (u : RechargeInput) :
    (borewellTierAR u).points = 10 ∨ (borewellTierAR u).points = 8 ∨
      (borewellTierAR u).points = 0 := by
  unfold borewellTierAR
  split_ifs <;> simp

theorem openSpaceTierAR_points (u : RechargeInput) :
    (openSpaceTierAR u).points = 10 ∨ (openSpaceTierAR u).points = 0 := by
  cases hb : u.hasOpenSpace with
  | false => simp [openSpaceTierAR, hb]
  | true =>
    cases ha : u.openSpaceArea with
    | none => simp [openSpaceTierAR, hb, ha]
    | some a => by_cases h0 : a = 0 <;> simp [openSpaceTierAR, hb, ha, h0]

theorem rwRawScore_bounds (u : RainwaterInput) (c : CityData) (rp hd : ℤ) :
    68 ≤ (calculateRainwaterFeasibility u c rp hd).rawScore ∧
      (calculateRainwaterFeasibility u c rp hd).rawScore ≤ 105 := by
  have h1 := rainfallTierRW_points c
  have h2 := roofTierRW_points u.roofType
  have h3 := coverageTierRW_points
    ((ERat.div (.fin (rp : ℚ)) (.fin (hd : ℚ))).mul (.fin 100))
  simp only [calculateRainwaterFeasibility]
  omega

theorem arRawScore_bounds (u : RechargeInput) (c : CityData) (rv : ℤ) :
    70 ≤ (calculateRechargeFeasibility u c rv).rawScore ∧
      (calculateRechargeFeasibility u c rv).rawScore ≤ 130 := by
  have h1 := rainfallTierAR_points c
  have h2 := soilTierAR_points u.soilType
  have h3 := gwTierAR_points u.groundwaterDepth
  have h4 := borewellTierAR_points u
  have h5 := openSpaceTierAR_points u
  simp only [calculateRechargeFeasibility]
  omega

theorem rwFeas_fields (u : RainwaterInput) (c : CityData) (rp hd : ℤ) :
    (calculateRainwaterFeasibility u c rp hd).feasibilityScore =
        min 100 (calculateRainwaterFeasibility u c rp hd).rawScore ∧
      (calculateRainwaterFeasibility u c rp hd).feasibilityLevel =
        feasLevelOf (calculateRainwaterFeasibility u c rp hd).rawScore := by
  simp only [calculateRainwaterFeasibility]
  constructor <;> trivial

theorem arFeas_fields (u : RechargeInput) (c : CityData) (rv : ℤ) :
    (calculateRechargeFeasibility u c rv).feasibilityScore =
        min 100 (calculateRechargeFeasibility u c rv).rawScore ∧
      (calculateRechargeFeasibility u c rv).feasibilityLevel =
        feasLevelOf (calculateRechargeFeasibility u c rv).rawScore := by
  simp only [calculateRechargeFeasibility]
  constructor <;> trivial

theorem feasLevelOf_spec (s : ℤ) :
    (feasLevelOf s = .High ↔ 80 ≤ s) ∧
      (feasLevelOf s = .Medium ↔ 60 ≤ s ∧ s < 80) ∧
      (feasLevelOf s = .Low ↔ s < 60) := by
  unfold feasLevelOf
  split_ifs <;> simp <;> omega

/-- Claim C4: in both calculation modes the returned feasibility score
lies in [0, 100], and the level is High exactly when the score is at
least 80, Medium exactly when it is in [60, 80), and Low exactly when it
is below 60. -/
theorem c4_feasibility_score_and_level (u : RainwaterInput) (u2 : RechargeInput)
    (c c2 : CityData) (rp hd rv : ℤ) :
    (0 ≤ (calculateRainwaterFeasibility u c rp hd).feasibilityScore ∧
     (calculateRainwaterFeasibility u c rp hd).feasibilityScore ≤ 100 ∧
     ((calculateRainwaterFeasibility u c rp hd).feasibilityLevel = .High ↔
        80 ≤ (calculateRainwaterFeasibility u c rp hd).feasibilityScore) ∧
     ((calculateRainwaterFeasibility u c rp hd).feasibilityLevel = .Medium ↔
        60 ≤ (calculateRainwaterFeasibility u c rp hd).feasibilityScore ∧
          (calculateRainwaterFeasibility u c rp hd).feasibilityScore < 80) ∧
     ((calculateRainwaterFeasibility u c rp hd).feasibilityLevel = .Low ↔
        (calculateRainwaterFeasibility u c rp hd).feasibilityScore < 60)) ∧
    (0 ≤ (calculateRechargeFeasibility u2 c2 rv).feasibilityScore ∧
     (calculateRechargeFeasibility u2 c2 rv).feasibilityScore ≤ 100 ∧
     ((calculateRechargeFeasibility u2 c2 rv).feasibilityLevel = .High ↔
        80 ≤ (calculateRechargeFeasibility u2 c2 rv).feasibilityScore) ∧
     ((calculateRechargeFeasibility u2 c2 rv).feasibilityLevel = .Medium ↔
        60 ≤ (calculateRechargeFeasibility u2 c2 rv).feasibilityScore ∧
          (calculateRechargeFeasibility u2 c2 rv).feasibilityScore < 80) ∧
     ((calculateRechargeFeasibility u2 c2 rv).feasibilityLevel = .Low ↔
        (calculateRechargeFeasibility u2 c2 rv).feasibilityScore < 60)) := by
  obtain ⟨hlo, hhi⟩ := rwRawScore_bounds u c rp hd
  obtain ⟨hs, hl⟩ := rwFeas_fields u c rp hd
  obtain ⟨hH, hM, hL⟩ := feasLevelOf_spec (calculateRainwaterFeasibility u c rp hd).rawScore
  obtain ⟨hlo2, hhi2⟩ := arRawScore_bounds u2 c2 rv
  obtain ⟨hs2, hl2⟩ := arFeas_fields u2 c2 rv
  obtain ⟨hH2, hM2, hL2⟩ := feasLevelOf_spec (calculateRechargeFeasibility u2 c2 rv).rawScore
  rw [hs, hl, hH, hM, hL, hs2, hl2, hH2, hM2, hL2]
  omega

/-- Claim C9: the accumulated score before clamping is at least 68 in
harvesting mode and at least 70 in recharge mode, so the returned level
is never Low in either mode. -/
theorem c9_score_floor_level_never_low (u : RainwaterInput) (u2 : RechargeInput)
    (c c2 : CityData) (rp hd rv : ℤ) :
    68 ≤ (calculateRainwaterFeasibility u c rp hd).rawScore ∧
    70 ≤ (calculateRechargeFeasibility u2 c2 rv).rawScore ∧
    (calculateRainwaterFeasibility u c rp hd).feasibilityLevel ≠ .Low ∧
    (calculateRechargeFeasibility u2 c2 rv).feasibilityLevel ≠ .Low := by
  obtain ⟨hlo, hhi⟩ := rwRawScore_bounds u c rp hd
  obtain ⟨hs, hl⟩ := rwFeas_fields u c rp hd
  obtain ⟨hH, hM, hL⟩ := feasLevelOf_spec (calculateRainwaterFeasibility u c rp hd).rawScore
  obtain ⟨hlo2, hhi2⟩ := arRawScore_bounds u2 c2 rv
  obtain ⟨hs2, hl2⟩ := arFeas_fields u2 c2 rv
  obtain ⟨hH2, hM2, hL2⟩ := feasLevelOf_spec (calculateRechargeFeasibility u2 c2 rv).rawScore
  refine ⟨hlo, hlo2, ?_, ?_⟩
  · rw [hl, Ne, hL]; omega
  · rw [hl2, Ne, hL2]; omega

/-! Claim C5: roof-material tier of the harvesting scorer.  The
mode-specific scorer has no separate tier for tiles; only the legacy
combined scorer keeps the +15 tiles tier. -/

/-- Claim C5 counterexample: in the harvesting-mode scorer a Tiles roof
contributes 10 points, not the claimed 15, and lands in the warning
tier. -/
theorem c5_tiles_counterexample :
    (roofTierRW RoofType.Tiles).points = 10 ∧
    (roofTierRW RoofType.Tiles).points ≠ 15 ∧
    (roofTierRW RoofType.Tiles).warns = ["Regular roof cleaning and maintenance required"] ∧
    (roofTierRW RoofType.Tiles).recs = [] := by
  refine ⟨?_, ?_, ?_, ?_⟩ <;> simp [roofTierRW]

/-- Claim C5 (amended): the mode-specific harvesting scorer awards +20
with a recommendation for RCC and GI roofs and +10 with a cleaning
warning for every other roof type, tiles included; the +15 tiles tier
with its own recommendation exists only in the legacy combined scorer
`calculateFeasibility`.  The last two conjuncts tie the tier into the
scorer's accumulated score and warning list. -/
theorem c5_roof_material_tiers (u : RainwaterInput) (c : CityData) (rp hd : ℤ) :
    roofTierRW .RCC = ⟨20, ["RCC roof is excellent for rainwater harvesting"], []⟩ ∧
    roofTierRW .GI = ⟨20, ["GI roof is excellent for rainwater harvesting"], []⟩ ∧
    roofTierRW .Tiles = ⟨10, [], ["Regular roof cleaning and maintenance required"]⟩ ∧
    roofTierRW .Asbestos = ⟨10, [], ["Regular roof cleaning and maintenance required"]⟩ ∧
    legacyRoofTier .Tiles =
      ⟨15, ["Clay/concrete tiles are suitable with proper first flush diverter"], []⟩ ∧
    (calculateRainwaterFeasibility u c rp hd).rawScore =
      50 + (rainfallTierRW c).points + (roofTierRW u.roofType).points +
        (coverageTierRW ((ERat.div (.fin (rp : ℚ)) (.fin (hd : ℚ))).mul (.fin 100))).points ∧
    (calculateRainwaterFeasibility u c rp hd).warnings =
      (rainfallTierRW c).warns ++ (roofTierRW u.roofType).warns ++
        (coverageTierRW ((ERat.div (.fin (rp : ℚ)) (.fin (hd : ℚ))).mul (.fin 100))).warns := by
  refine ⟨?_, ?_, ?_, ?_, ?_, ?_, ?_⟩ <;>
    simp [roofTierRW, roofTypeName, legacyRoofTier, calculateRainwaterFeasibility]

/-! Claim C2: city resolution is total on a non-empty table, so the
calculation facade can fail only when the table is empty. -/

theorem findCityData_isSome (cities : List CityData) (loc pin : String) :
    (findCityData cities loc pin).isSome ↔ cities ≠ [] := by
  cases cities with
  | nil => simp [findCityData]
  | cons x xs =>
    constructor
    · intro _
      exact List.cons_ne_nil x xs
    · intro _
      simp only [findCityData]
      split
      · rfl
      · split
        · rfl
        · simp

theorem findCityData_stages (cities : List CityData) (loc pin : String) :
    findCityData cities loc pin =
      ((cities.find? (fun city => city.pincode.startsWith (pin.take 3))).or
        (cities.find? (fun city =>
          strHasSub city.city.toLower loc.toLower ||
          strHasSub loc.toLower city.city.toLower ||
          strHasSub city.state.toLower loc.toLower))).or
      ((cities.find? (fun city => city.city == "Delhi")).or cities.head?) := by
  simp only [findCityData]
  rcases h1 : cities.find? (fun city => city.pincode.startsWith (pin.take 3)) with _ | c
  · rcases h2 : cities.find? (fun city =>
        strHasSub city.city.toLower loc.toLower ||
        strHasSub loc.toLower city.city.toLower ||
        strHasSub city.state.toLower loc.toLower) with _ | c
    · rcases h3 : cities.find? (fun city => city.city == "Delhi") with _ | c <;>
        simp [h1, h2, h3, Option.or]
    · simp [h1, h2, Option.or]
  · simp [h1, Option.or]

/-- Claim C2: on a non-empty city table resolution always returns a
record, in the order pincode-prefix match, fuzzy city/state name match,
Delhi fallback, first entry (second conjunct); consequently both
calculation facades succeed exactly when the table is non-empty. -/
theorem c2_resolution_never_fails (cities : List CityData) (co : Coefficients)
    (sq : ℚ → ℚ) (loc pin : String) (u : RainwaterInput) (u2 : RechargeInput) :
    ((findCityData cities loc pin).isSome ↔ cities ≠ []) ∧
    (findCityData cities loc pin =
      ((cities.find? (fun city => city.pincode.startsWith (pin.take 3))).or
        (cities.find? (fun city =>
          strHasSub city.city.toLower loc.toLower ||
          strHasSub loc.toLower city.city.toLower ||
          strHasSub city.state.toLower loc.toLower))).or
      ((cities.find? (fun city => city.city == "Delhi")).or cities.head?)) ∧
    ((calculateRainwaterHarvesting cities co u).isOk ↔ cities ≠ []) ∧
    ((calculateArtificialRecharge sq cities co u2).isOk ↔ cities ≠ []) := by
  refine ⟨findCityData_isSome cities loc pin, findCityData_stages cities loc pin, ?_, ?_⟩
  · rw [← findCityData_isSome cities u.location u.pincode]
    simp only [calculateRainwaterHarvesting]
    cases h : findCityData cities u.location u.pincode with
    | none => simp [Except.isOk, Except.toBool]
    | some c => simp [Except.isOk, Except.toBool]
  · rw [← findCityData_isSome cities u2.location u2.pincode]
    simp only [calculateArtificialRecharge]
    cases h : findCityData cities u2.location u2.pincode with
    | none => simp [Except.isOk, Except.toBool]
    | some c => simp [Except.isOk, Except.toBool]

/-! Claim C6: guards on division denominators.  The payback denominators
are guarded by `max(x, 1)`; the coverage denominator is not. -/

/-- Modelled from the spec: the coverage-percentage step as claim C6
describes it, with a `max(x, 1)` guard on the demand denominator (the
source `calculateRainwaterHarvesting` line has no such guard). -/
def covPercGuarded (rainwaterPotential householdDemand : ℤ) : ERat :=
  ERat.minE (.fin 100)
    (ERat.roundE ((ERat.div (.fin (rainwaterPotential : ℚ))
      (.fin (max (householdDemand : ℚ) 1))).mul (.fin 100)))

/-- Claim C6 counterexample: at zero potential and zero demand the
source coverage step produces NaN, while the guarded variant the claim
describes would produce 0; so the coverage denominator carries no
`max(x, 1)` guard and the output is not always finite. -/
theorem c6_coverage_unguarded_counterexample :
    covPercE 0 0 = ERat.nan ∧
    covPercGuarded 0 0 = ERat.fin 0 ∧
    (covPercE 0 0).isFinite = false := by
  refine ⟨?_, ?_, ?_⟩ <;>
    norm_num [covPercE, covPercGuarded, ERat.div, ERat.mul, ERat.roundE,
      ERat.minE, ERat.isFinite, jround]

/-- Claim C6 (amended): the payback denominators in both cost models are
guarded by `max(x, 1)` (hence at least 1) and the payback periods are
capped at 25 and 30 years; the coverage denominator is unguarded, and
the coverage step is finite exactly when the demand is non-zero or the
potential is positive (at zero demand and zero potential it is NaN). -/
theorem c6_denominator_guards (co : Coefficients) (u : RainwaterInput)
    (u2 : RechargeInput) (rp tank rv rp2 hd2 : ℤ) :
    (calculateRainwaterCosts co u rp tank).paybackPeriod ≤ 25 ∧
    (calculateRainwaterCosts co u rp tank).paybackPeriod =
      min (jround (((calculateRainwaterCosts co u rp tank).systemCostMedium : ℚ) /
        max (((calculateRainwaterCosts co u rp tank).annualSavings : ℚ) -
          ((calculateRainwaterCosts co u rp tank).systemCostMedium : ℚ) *
            co.advancedFactors.maintenanceAnnual) 1)) 25 ∧
    (1 : ℚ) ≤ max (((calculateRainwaterCosts co u rp tank).annualSavings : ℚ) -
      ((calculateRainwaterCosts co u rp tank).systemCostMedium : ℚ) *
        co.advancedFactors.maintenanceAnnual) 1 ∧
    (calculateRechargeCosts co u2 rv).paybackPeriod ≤ 30 ∧
    (calculateRechargeCosts co u2 rv).paybackPeriod =
      min (jround (((calculateRechargeCosts co u2 rv).systemCostMedium : ℚ) /
        max (if u2.hasBorewell then (12000 : ℚ) else 5000) 1)) 30 ∧
    ((covPercE rp2 hd2).isFinite = true ↔ (hd2 ≠ 0 ∨ 0 < rp2)) := by
  refine ⟨?_, ?_, le_max_right _ _, ?_, ?_, ?_⟩
  · simp only [calculateRainwaterCosts]
    exact min_le_right _ _
  · simp only [calculateRainwaterCosts]
  · simp only [calculateRechargeCosts]
    exact min_le_right _ _
  · simp only [calculateRechargeCosts]
  · by_cases hhd : hd2 = 0
    · subst hhd
      rcases lt_trichotomy rp2 0 with hr | hr | hr
      · have h1 : ¬ (0 : ℚ) < (rp2 : ℚ) := by exact_mod_cast hr.not_lt
        have h2 : ((rp2 : ℚ)) ≠ 0 := by exact_mod_cast hr.ne
        simp [covPercE, ERat.div, ERat.mul, ERat.roundE, ERat.minE, ERat.isFinite,
          h1, h2, hr.ne, hr.not_lt]
      · subst hr
        simp [covPercE, ERat.div, ERat.mul, ERat.roundE, ERat.minE, ERat.isFinite]
      · have h1 : (0 : ℚ) < (rp2 : ℚ) := by exact_mod_cast hr
        simp [covPercE, ERat.div, ERat.mul, ERat.roundE, ERat.minE, ERat.isFinite,
          h1, h1.ne.symm, hr, hr.ne.symm]
    · have h1 : ((hd2 : ℚ)) ≠ 0 := by exact_mod_cast hhd
      simp [covPercE, ERat.div, ERat.mul, ERat.roundE, ERat.minE, ERat.isFinite, h1, hhd]

/-! Claim C1: the harvesting potential formula, entry count,
non-negativity, and the sum property. -/

/-- Validity conditions on the reference data and input used by the
potential estimator: twelve non-negative monthly rainfall values,
non-negative area and factors, evaporation loss at most one.  The data
files are absent from the sources; these are the structural constraints
of `cityDataSchema` plus the physical ranges the spec describes. -/
def ValidPotentialData (co : Coefficients) (u : RainwaterInput) (c : CityData) : Prop :=
  c.monthlyRainfall.length = 12 ∧
  (∀ r ∈ c.monthlyRainfall, 0 ≤ r) ∧
  0 ≤ u.roofArea ∧
  0 ≤ co.runoffCoefficients u.roofType ∧
  0 ≤ calculateQualityFactor co u ∧
  (∀ s, 0 ≤ co.advancedFactors.seasonalVariation s) ∧
  co.advancedFactors.evaporationLoss c.region ≤ 1

/-- Claim C1: for valid data every month's potential equals
`round(area * rainfall * runoff * quality * seasonal * (1 - evaporation))`
with the season taken from the 0-based month index, the monthly list has
exactly twelve non-negative entries, and the annual potential is the sum
of the already-rounded monthly values. -/
theorem c1_monthly_potential_formula (co : Coefficients) (u : RainwaterInput)
    (c : CityData) (h : ValidPotentialData co u c) :
    (calculateRainwaterPotential co u c).monthly.length = 12 ∧
    (∀ i, i < 12 →
      (calculateRainwaterPotential co u c).monthly.getD i 0 =
        jround (u.roofArea * c.monthlyRainfall.getD i 0 *
          co.runoffCoefficients u.roofType * calculateQualityFactor co u *
          co.advancedFactors.seasonalVariation (getSeason i) *
          (1 - co.advancedFactors.evaporationLoss c.region))) ∧
    (∀ x ∈ (calculateRainwaterPotential co u c).monthly, 0 ≤ x) ∧
    (calculateRainwaterPotential co u c).annual =
      (calculateRainwaterPotential co u c).monthly.sum := by
  obtain ⟨h12, hrain, harea, hrc, hqf, hsf, hev⟩ := h
  refine ⟨?_, ?_, ?_, ?_⟩
  · simp only [calculateRainwaterPotential]
    rw [mapIdxFrom_length]
    exact h12
  · intro i hi
    have hi2 : i < c.monthlyRainfall.length := by omega
    simp only [calculateRainwaterPotential]
    rw [mapIdxFrom_getD _ _ 0 i hi2]
    simp
  · simp only [calculateRainwaterPotential]
    refine mapIdxFrom_nonneg ?_ 0
    intro i r hr
    have h1 : 0 ≤ 1 - co.advancedFactors.evaporationLoss c.region := by linarith
    have h2 := hrain r hr
    exact jround_nonneg
      (mul_nonneg (mul_nonneg (mul_nonneg (mul_nonneg (mul_nonneg harea h2) hrc) hqf)
        (hsf _)) h1)
  · simp only [calculateRainwaterPotential]

/-- Claim C1 witness: the hypotheses and conclusion of
`c1_monthly_potential_formula` at the sample data. -/
theorem c1_monthly_potential_witness :
    ValidPotentialData coS uRW cityDry ∧
    ((calculateRainwaterPotential coS uRW cityDry).monthly.length = 12 ∧
    (∀ i, i < 12 →
      (calculateRainwaterPotential coS uRW cityDry).monthly.getD i 0 =
        jround (uRW.roofArea * cityDry.monthlyRainfall.getD i 0 *
          coS.runoffCoefficients uRW.roofType * calculateQualityFactor coS uRW *
          coS.advancedFactors.seasonalVariation (getSeason i) *
          (1 - coS.advancedFactors.evaporationLoss cityDry.region))) ∧
    (∀ x ∈ (calculateRainwaterPotential coS uRW cityDry).monthly, 0 ≤ x) ∧
    (calculateRainwaterPotential coS uRW cityDry).annual =
      (calculateRainwaterPotential coS uRW cityDry).monthly.sum) := by
  have hv : ValidPotentialData coS uRW cityDry := by
    refine ⟨by norm_num [cityDry], ?_, by norm_num [uRW], ?_, ?_, ?_, ?_⟩
    · intro r hr
      simp only [cityDry] at hr
      fin_cases hr <;> norm_num
    · norm_num [coS, uRW]
    · norm_num [calculateQualityFactor, coS, uRW]
    · intro s
      cases s <;> norm_num [coS]
    · norm_num [coS, cityDry]
  exact ⟨hv, c1_monthly_potential_formula coS uRW cityDry hv⟩

/-! Claim C7: the recharge potential formula and the effect of the
catchment coefficient. -/

theorem getD_mem_of_lt {l : List ℚ} {i : ℕ} (h : i < l.length) : l.getD i 0 ∈ l := by
  rw [List.getD_eq_getElem l 0 h]
  exact List.getElem_mem h

/-- Validity conditions for the recharge potential estimator, analogous
to `ValidPotentialData`; the last conjunct asks for one month whose
unscaled volume is at least 2 litres, which makes the coefficient gap
survive the per-month rounding. -/
def ValidRechargeData (co : Coefficients) (u : RechargeInput) (c : CityData) : Prop :=
  c.monthlyRainfall.length = 12 ∧
  (∀ r ∈ c.monthlyRainfall, 0 ≤ r) ∧
  0 ≤ u.catchmentArea ∧
  (∀ s, 0 ≤ co.advancedFactors.seasonalVariation s) ∧
  co.advancedFactors.evaporationLoss c.region * 0.5 ≤ 1 ∧
  (∃ i, i < 12 ∧ 2 ≤ u.catchmentArea * c.monthlyRainfall.getD i 0 *
    co.advancedFactors.seasonalVariation (getSeason i) *
    (1 - co.advancedFactors.evaporationLoss c.region * 0.5))

/-- Claim C7: the recharge estimator selects the runoff coefficient by
catchment surface (Rooftop 0.85, Terrace 0.90, Paved 0.80, Open Ground
0.20), applies no quality factor and halves the evaporation loss (the
per-month formula conjunct), and for valid data an Open Ground catchment
yields a strictly lower annual potential than an equal-area Rooftop
catchment on the same city. -/
theorem c7_recharge_potential (co : Coefficients) (u : RechargeInput) (c : CityData)
    (h : ValidRechargeData co u c) :
    catchmentCoeff .Rooftop = 0.85 ∧ catchmentCoeff .Terrace = 0.9 ∧
    catchmentCoeff .Paved = 0.8 ∧ catchmentCoeff .OpenGround = 0.2 ∧
    (∀ i, i < 12 →
      (calculateRechargePotential co u c).monthly.getD i 0 =
        jround (u.catchmentArea * c.monthlyRainfall.getD i 0 *
          catchmentCoeff u.catchmentType *
          co.advancedFactors.seasonalVariation (getSeason i) *
          (1 - co.advancedFactors.evaporationLoss c.region * 0.5))) ∧
    (calculateRechargePotential co { u with catchmentType := .OpenGround } c).annual <
      (calculateRechargePotential co { u with catchmentType := .Rooftop } c).annual := by
  obtain ⟨h12, hrain, harea, hsf, hev, j, hj, hjw⟩ := h
  have hsum : ∀ ct : CatchType,
      (calculateRechargePotential co { u with catchmentType := ct } c).annual =
        ∑ i ∈ Finset.range 12, jround (u.catchmentArea * c.monthlyRainfall.getD i 0 *
          catchmentCoeff ct * co.advancedFactors.seasonalVariation (getSeason i) *
          (1 - co.advancedFactors.evaporationLoss c.region * 0.5)) := by
    intro ct
    simp only [calculateRechargePotential]
    rw [mapIdxFrom_sum, h12]
    refine Finset.sum_congr rfl fun i _ => ?_
    simp [Nat.zero_add]
  have hw : ∀ i, i < 12 → 0 ≤ u.catchmentArea * c.monthlyRainfall.getD i 0 *
      co.advancedFactors.seasonalVariation (getSeason i) *
      (1 - co.advancedFactors.evaporationLoss c.region * 0.5) := by
    intro i hi
    have hr := hrain _ (getD_mem_of_lt (by omega : i < c.monthlyRainfall.length))
    have h1 : 0 ≤ 1 - co.advancedFactors.evaporationLoss c.region * 0.5 := by linarith
    exact mul_nonneg (mul_nonneg (mul_nonneg harea hr) (hsf _)) h1
  refine ⟨by norm_num [catchmentCoeff], by norm_num [catchmentCoeff],
    by norm_num [catchmentCoeff], by norm_num [catchmentCoeff], ?_, ?_⟩
  · intro i hi
    simp only [calculateRechargePotential]
    rw [mapIdxFrom_getD _ _ 0 i (by omega)]
    simp
  · rw [hsum .OpenGround, hsum .Rooftop]
    refine Finset.sum_lt_sum ?_ ?_
    · intro i hi
      refine jround_mono ?_
      have := hw i (Finset.mem_range.mp hi)
      simp only [catchmentCoeff]
      nlinarith [this]
    · refine ⟨j, Finset.mem_range.mpr hj, jround_lt_jround ?_⟩
      simp only [catchmentCoeff]
      nlinarith [hjw]

/-- Claim C7 witness: the hypotheses and comparative conclusion of
`c7_recharge_potential` at the sample data. -/
theorem c7_recharge_potential_witness :
    ValidRechargeData coS uAR cityDry ∧
    ((calculateRechargePotential coS { uAR with catchmentType := .OpenGround } cityDry).annual <
      (calculateRechargePotential coS { uAR with catchmentType := .Rooftop } cityDry).annual) := by
  have hv : ValidRechargeData coS uAR cityDry := by
    refine ⟨by norm_num [cityDry], ?_, by norm_num [uAR], ?_, ?_, ?_⟩
    · intro r hr
      simp only [cityDry] at hr
      fin_cases hr <;> norm_num
    · intro s
      cases s <;> norm_num [coS]
    · norm_num [coS, cityDry]
    · have h6 : cityDry.monthlyRainfall.getD 6 0 = (211 : ℚ) := rfl
      have hs6 : getSeason 6 = Season.monsoon := rfl
      refine ⟨6, by norm_num, ?_⟩
      rw [h6, hs6]
      norm_num [uAR, coS, cityDry]
  exact ⟨hv, (c7_recharge_potential coS uAR cityDry hv).2.2.2.2.2⟩

/-! Claim C8: the bird-nesting flag strictly lowers the harvesting
potential, but the mode-specific scorer emits no bird-nesting warning at
all (only the legacy combined scorer does). -/

/-- Claim C8 counterexample: with the bird-nesting flag set, the
harvesting scorer's warning list at a wet city with an RCC roof is
empty; no bird-nesting warning appears even though the flag is true. -/
theorem c8_no_bird_warning_counterexample :
    ({ uRW with birdNesting := true } : RainwaterInput).birdNesting = true ∧
    (calculateRainwaterFeasibility { uRW with birdNesting := true } cityWet 0 1).warnings
      = [] := by
  constructor
  · rfl
  · norm_num [calculateRainwaterFeasibility, rainfallTierRW, roofTierRW, coverageTierRW,
      cityWet, uRW, ERat.div, ERat.mul, ERat.gtB]

/-- Validity conditions for the bird-nesting comparison: valid rainfall
data, non-negative factors, a bird-nesting factor in [0, 1], and one
month whose potential gap exceeds the rounding granularity. -/
def ValidBirdData (co : Coefficients) (u : RainwaterInput) (c : CityData) : Prop :=
  c.monthlyRainfall.length = 12 ∧
  (∀ r ∈ c.monthlyRainfall, 0 ≤ r) ∧
  0 ≤ u.roofArea ∧
  0 ≤ co.runoffCoefficients u.roofType ∧
  0 ≤ co.advancedFactors.qualityFactors.environment u.environment ∧
  0 ≤ co.advancedFactors.qualityFactors.birdNesting ∧
  co.advancedFactors.qualityFactors.birdNesting ≤ 1 ∧
  (∀ s, 0 ≤ co.advancedFactors.seasonalVariation s) ∧
  co.advancedFactors.evaporationLoss c.region ≤ 1 ∧
  (∃ i, i < 12 ∧ 2 ≤ co.advancedFactors.qualityFactors.environment u.environment *
    (1 - co.advancedFactors.qualityFactors.birdNesting) *
    (u.roofArea * c.monthlyRainfall.getD i 0 * co.runoffCoefficients u.roofType *
      co.advancedFactors.seasonalVariation (getSeason i) *
      (1 - co.advancedFactors.evaporationLoss c.region)))

/-- Claim C8 (amended): for valid data the annual harvesting potential
with bird nesting is strictly lower than without it (the quality-factor
penalty is applied), and the warning list of the mode-specific
harvesting scorer is identical whether or not the flag is set — no
bird-nesting warning is ever emitted by it. -/
theorem c8_bird_nesting_penalty (co : Coefficients) (u : RainwaterInput) (c : CityData)
    (h : ValidBirdData co u c) :
    (calculateRainwaterPotential co { u with birdNesting := true } c).annual <
      (calculateRainwaterPotential co { u with birdNesting := false } c).annual ∧
    (∀ (c2 : CityData) (rp hd : ℤ),
      (calculateRainwaterFeasibility { u with birdNesting := true } c2 rp hd).warnings =
        (calculateRainwaterFeasibility { u with birdNesting := false } c2 rp hd).warnings) := by
  obtain ⟨h12, hrain, harea, hrc, henv, hpen0, hpen1, hsf, hev, j, hj, hjw⟩ := h
  have hq1 : calculateQualityFactor co { u with birdNesting := true } =
      co.advancedFactors.qualityFactors.environment u.environment *
        co.advancedFactors.qualityFactors.birdNesting := rfl
  have hq0 : calculateQualityFactor co { u with birdNesting := false } =
      co.advancedFactors.qualityFactors.environment u.environment := rfl
  have hsum : ∀ b : Bool,
      (calculateRainwaterPotential co { u with birdNesting := b } c).annual =
        ∑ i ∈ Finset.range 12, jround (u.roofArea * c.monthlyRainfall.getD i 0 *
          co.runoffCoefficients u.roofType *
          calculateQualityFactor co { u with birdNesting := b } *
          co.advancedFactors.seasonalVariation (getSeason i) *
          (1 - co.advancedFactors.evaporationLoss c.region)) := by
    intro b
    simp only [calculateRainwaterPotential]
    rw [mapIdxFrom_sum, h12]
    refine Finset.sum_congr rfl fun i _ => ?_
    simp [Nat.zero_add]
  have hw : ∀ i, i < 12 → 0 ≤ u.roofArea * c.monthlyRainfall.getD i 0 *
      co.runoffCoefficients u.roofType *
      co.advancedFactors.seasonalVariation (getSeason i) *
      (1 - co.advancedFactors.evaporationLoss c.region) := by
    intro i hi
    have hr := hrain _ (getD_mem_of_lt (by omega : i < c.monthlyRainfall.length))
    have h1 : 0 ≤ 1 - co.advancedFactors.evaporationLoss c.region := by linarith
    exact mul_nonneg (mul_nonneg (mul_nonneg (mul_nonneg harea hr) hrc) (hsf _)) h1
  constructor
  · rw [hsum true, hsum false, hq1, hq0]
    refine Finset.sum_lt_sum ?_ ?_
    · intro i hi
      refine jround_mono ?_
      have hwi := hw i (Finset.mem_range.mp hi)
      have key : 0 ≤ co.advancedFactors.qualityFactors.environment u.environment *
          (1 - co.advancedFactors.qualityFactors.birdNesting) *
          (u.roofArea * c.monthlyRainfall.getD i 0 * co.runoffCoefficients u.roofType *
            co.advancedFactors.seasonalVariation (getSeason i) *
            (1 - co.advancedFactors.evaporationLoss c.region)) :=
        mul_nonneg (mul_nonneg henv (by linarith)) hwi
      nlinarith [key]
    · refine ⟨j, Finset.mem_range.mpr hj, jround_lt_jround ?_⟩
      nlinarith [hjw]
  · intro c2 rp hd
    rfl

/-- Claim C8 witness: the hypotheses and strict-decrease conclusion of
`c8_bird_nesting_penalty` at the sample data. -/
theorem c8_bird_nesting_penalty_witness :
    ValidBirdData coS uRW cityDry ∧
    (calculateRainwaterPotential coS { uRW with birdNesting := true } cityDry).annual <
      (calculateRainwaterPotential coS { uRW with birdNesting := false } cityDry).annual := by
  have hv : ValidBirdData coS uRW cityDry := by
    refine ⟨by norm_num [cityDry], ?_, by norm_num [uRW], by norm_num [coS, uRW],
      by norm_num [coS, uRW], by norm_num [coS], by norm_num [coS], ?_,
      by norm_num [coS, cityDry], ?_⟩
    · intro r hr
      simp only [cityDry] at hr
      fin_cases hr <;> norm_num
    · intro s
      cases s <;> norm_num [coS]
    · have h6 : cityDry.monthlyRainfall.getD 6 0 = (211 : ℚ) := rfl
      have hs6 : getSeason 6 = Season.monsoon := rfl
      refine ⟨6, by norm_num, ?_⟩
      rw [h6, hs6]
      norm_num [uRW, coS, cityDry]
  exact ⟨hv, (c8_bird_nesting_penalty coS uRW cityDry hv).1⟩

/-! Claim C10: finiteness of the per-trench length.  When the recharge
volume rounds to zero the unclamped trench count is zero and the
per-trench length is `0 / 0 = NaN`; the length is finite whenever the
volume is at least one litre-unit. -/

/-- Claim C10 counterexample: with open space declared (area 100, square
root 10) and a recharge volume of zero, the returned per-trench length
is NaN — not a finite number — because the unclamped trench count is
zero. -/
theorem c10_trench_nan_counterexample :
    uAR.hasOpenSpace = true ∧ uAR.openSpaceArea = some 100 ∧
    calculateTrenchDimensions (fun _ => 10) coS uAR 0 =
      some { length := ERat.nan, width := 0.5, depth := 1.5, count := ERat.fin 1 } ∧
    ERat.nan.isFinite = false := by
  refine ⟨rfl, rfl, ?_, rfl⟩
  norm_num [calculateTrenchDimensions, uAR, coS, ERat.div, ERat.ceilE, ERat.toFixed1,
    ERat.maxE, jround]

/-- Claim C10 (amended): whenever the open-space flag is set with a
positive area (and positive square root), the soil's infiltration rate
is positive, and the recharge volume is at least 1, the trench
computation returns a record whose per-trench length is a finite number;
the claim's inclusion of the zero-volume case is refuted by
`c10_trench_nan_counterexample`. -/
theorem c10_trench_length_finite (sq : ℚ → ℚ) (co : Coefficients) (u : RechargeInput)
    (rv : ℤ) (hos : u.hasOpenSpace = true) (a : ℚ) (ha : u.openSpaceArea = some a)
    (hapos : 0 < a) (hsqa : 0 < sq a)
    (hinf : 0 < co.infiltrationRates u.soilType) (hrv : 1 ≤ rv) :
    Option.map (fun t => ERat.isFinite t.length)
      (calculateTrenchDimensions sq co u rv) = some true := by
  have hD : (0 : ℚ) < co.infiltrationRates u.soilType / 1000 * 8 * 1000 := by
    have heq : co.infiltrationRates u.soilType / 1000 * 8 * 1000 =
        8 * co.infiltrationRates u.soilType := by ring
    rw [heq]
    linarith
  have hA : (0 : ℚ) < (rv : ℚ) * 1000 / 120 := by
    have h1 : (1 : ℚ) ≤ (rv : ℚ) := by exact_mod_cast hrv
    have heq : (rv : ℚ) * 1000 / 120 = 25 / 3 * (rv : ℚ) := by ring
    rw [heq]
    linarith
  have ht : (0 : ℚ) < (rv : ℚ) * 1000 / 120 / (co.infiltrationRates u.soilType / 1000 * 8 * 1000) :=
    div_pos hA hD
  have htt : (0 : ℚ) <
      (rv : ℚ) * 1000 / 120 / (co.infiltrationRates u.soilType / 1000 * 8 * 1000) / 0.5 :=
    div_pos ht (by norm_num)
  have hm : (0 : ℚ) < sq a * 0.8 := by nlinarith [hsqa]
  have hcnt : (0 : ℤ) <
      ⌈(rv : ℚ) * 1000 / 120 / (co.infiltrationRates u.soilType / 1000 * 8 * 1000) / 0.5 /
        (sq a * 0.8)⌉ :=
    Int.ceil_pos.mpr (div_pos htt hm)
  have hcntq : ((⌈(rv : ℚ) * 1000 / 120 / (co.infiltrationRates u.soilType / 1000 * 8 * 1000) / 0.5 /
      (sq a * 0.8)⌉ : ℤ) : ℚ) ≠ 0 := by
    exact_mod_cast hcnt.ne'
  simp only [calculateTrenchDimensions, hos, ha]
  rw [if_neg hapos.ne']
  simp only [ERat.div, if_neg hD.ne', if_neg (by norm_num : ¬ (0.5 : ℚ) = 0),
    if_neg hm.ne', ERat.ceilE, if_neg hcntq, ERat.toFixed1, Option.map_some]
  simp [ERat.isFinite]

/-- Claim C10 witness: the hypotheses of `c10_trench_length_finite`
discharged at the sample recharge input with recharge volume 1. -/
theorem c10_trench_length_finite_witness :
    (uAR.hasOpenSpace = true ∧ uAR.openSpaceArea = some 100 ∧ (0 : ℚ) < 100 ∧
      (0 : ℚ) < 10 ∧ 0 < coS.infiltrationRates uAR.soilType ∧ (1 : ℤ) ≤ 1) ∧
    Option.map (fun t => ERat.isFinite t.length)
      (calculateTrenchDimensions (fun _ => 10) coS uAR 1) = some true := by
  refine ⟨⟨rfl, rfl, by norm_num, by norm_num, by norm_num [coS, uAR], le_refl 1⟩, ?_⟩
  exact c10_trench_length_finite (fun _ => 10) coS uAR 1 rfl 100 rfl (by norm_num)
    (by norm_num) (by norm_num [coS, uAR]) (le_refl 1)

end RTRWH
